import Mathlib

/-!
Shallow embedding of `src/desktop/src-tauri/src/commands.rs`: the Tauri
command layer proxying four HTTP operations (get_health, get_snapshot,
get_agents, submit_task) against a fixed base URL, with serde-style JSON
(de)serialization into typed records.

Modelling conventions:
* JSON numbers are carried as exact rationals (`Rat`).  The layer performs no
  arithmetic on numbers: `f64` fields are carried verbatim, and `u32`/`u64`
  fields decode only from integral values in range, as serde_json does.
* Decoding follows serde derive semantics: every field without a default is
  required (missing field is an error), `Option` fields default to `none`
  when absent, unknown fields are ignored, and `#[serde(rename = "...")]`
  determines the wire name looked up in the JSON object.
* Error message texts are descriptive stand-ins; the source converts the
  underlying library errors to strings with `e.to_string()`, and no caller
  depends on the exact text.
* The HTTP client is modelled as a transport oracle mapping a request to
  either a transport failure (a message string, as produced by
  `map_err(|e| e.to_string())`) or a response carrying a status code and an
  already-parsed JSON body.  Each operation returns the list of requests it
  issued (its trace) alongside its result, mirroring the single
  `.send()` call in the source.
-/

/-- A JSON value, as handled by serde_json. Numbers are modelled as exact
rationals; the command layer only transports them. -/
inductive Json where
  | null : Json
  | bool (b : Bool) : Json
  | num (q : Rat) : Json
  | str (s : String) : Json
  | arr (elems : List Json) : Json
  | obj (fields : List (String × Json)) : Json

/-- First binding of a field name in a JSON object, as serde sees it. -/
def findField : List (String × Json) → String → Option Json
  | [], _ => none
  | (k, v) :: rest, name => if k = name then some v else findField rest name

/-- serde decode of a Rust `String` from a JSON value. -/
def getStr : Json → Except String String
  | .str s => .ok s
  | _ => .error "invalid type: expected a string"

/-- serde decode of a Rust `f64` from a JSON value: any JSON number is
accepted, the value carried verbatim. -/
def getF64 : Json → Except String Rat
  | .num q => .ok q
  | _ => .error "invalid type: expected f64"

/-- serde decode of a Rust `u32`: an integral JSON number in `[0, 2^32)`. -/
def getU32 (j : Json) : Except String Nat :=
  match j with
  | .num q =>
      if q.den = 1 ∧ 0 ≤ q.num ∧ q.num < 4294967296 then .ok q.num.toNat
      else .error "invalid value: expected u32"
  | _ => .error "invalid type: expected u32"

/-- serde decode of a Rust `u64`: an integral JSON number in `[0, 2^64)`. -/
def getU64 (j : Json) : Except String Nat :=
  match j with
  | .num q =>
      if q.den = 1 ∧ 0 ≤ q.num ∧ q.num < 18446744073709551616 then .ok q.num.toNat
      else .error "invalid value: expected u64"
  | _ => .error "invalid type: expected u64"

/-- serde decode of a Rust `Option<String>` from a present JSON value:
`null` becomes `none`, a string becomes `some`. -/
def getNullableStr : Json → Except String (Option String)
  | .null => .ok none
  | .str s => .ok (some s)
  | _ => .error "invalid type: expected a string or null"

/-- Look up a required struct field by its wire name and decode it; a missing
field is a decode error, as for any serde field without a default. -/
def reqField (fs : List (String × Json)) (name : String)
    (dec : Json → Except String α) : Except String α :=
  match findField fs name with
  | none => .error ("missing field " ++ name)
  | some v => dec v

/-- Look up an `Option<String>` struct field: serde defaults a missing
`Option` field to `None`. -/
def optStrField (fs : List (String × Json)) (name : String) :
    Except String (Option String) :=
  match findField fs name with
  | none => .ok none
  | some v => getNullableStr v

/-- `HealthResponse` from commands.rs: `{ status: String, health: f64 }`. -/
structure HealthResponse where
  status : String
  health : Rat
deriving DecidableEq

/-- `AgentSnapshot` from commands.rs, with its serde renames
(`agentId`, `teamType`, `currentTask`, `tasksCompleted`, `tasksFailed`). -/
structure AgentSnapshot where
  agent_id : String
  team_type : String
  status : String
  current_task : Option String
  tasks_completed : Nat
  tasks_failed : Nat
  uptime : Nat
deriving DecidableEq

/-- `DashboardSnapshot` from commands.rs, with its serde renames
(`systemHealth`, `activeWorkflows`, `totalTasksCompleted`,
`totalTasksFailed`). -/
structure DashboardSnapshot where
  system_health : Rat
  agents : List AgentSnapshot
  active_workflows : Nat
  total_tasks_completed : Nat
  total_tasks_failed : Nat
  uptime : Nat
  timestamp : String
deriving DecidableEq

/-- `SubmitTaskRequest` from commands.rs: `{ name: String, description: String }`. -/
structure SubmitTaskRequest where
  name : String
  description : String
deriving DecidableEq

/-- `SubmitTaskResponse` from commands.rs, with serde rename `taskId`. -/
structure SubmitTaskResponse where
  task_id : String
  status : String
deriving DecidableEq

/-- serde `Deserialize` for `HealthResponse`. -/
def decodeHealthResponse (j : Json) : Except String HealthResponse :=
  match j with
  | .obj fs => do
      let status ← reqField fs "status" getStr
      let health ← reqField fs "health" getF64
      .ok { status := status, health := health }
  | _ => .error "invalid type: expected an object"

/-- serde `Deserialize` for `AgentSnapshot`, looking fields up by their wire
(camelCase) names. -/
def decodeAgentSnapshot (j : Json) : Except String AgentSnapshot :=
  match j with
  | .obj fs => do
      let agent_id ← reqField fs "agentId" getStr
      let team_type ← reqField fs "teamType" getStr
      let status ← reqField fs "status" getStr
      let current_task ← optStrField fs "currentTask"
      let tasks_completed ← reqField fs "tasksCompleted" getU32
      let tasks_failed ← reqField fs "tasksFailed" getU32
      let uptime ← reqField fs "uptime" getU64
      .ok { agent_id := agent_id, team_type := team_type, status := status,
            current_task := current_task, tasks_completed := tasks_completed,
            tasks_failed := tasks_failed, uptime := uptime }
  | _ => .error "invalid type: expected an object"

/-- serde `Deserialize` for `Vec<AgentSnapshot>`. -/
def decodeAgentSnapshots : Json → Except String (List AgentSnapshot)
  | .arr items => items.mapM decodeAgentSnapshot
  | _ => .error "invalid type: expected an array"

/-- serde `Deserialize` for `DashboardSnapshot`, looking fields up by their
wire (camelCase) names. -/
def decodeDashboardSnapshot (j : Json) : Except String DashboardSnapshot :=
  match j with
  | .obj fs => do
      let system_health ← reqField fs "systemHealth" getF64
      let agents ← reqField fs "agents" decodeAgentSnapshots
      let active_workflows ← reqField fs "activeWorkflows" getU32
      let total_tasks_completed ← reqField fs "totalTasksCompleted" getU32
      let total_tasks_failed ← reqField fs "totalTasksFailed" getU32
      let uptime ← reqField fs "uptime" getU64
      let timestamp ← reqField fs "timestamp" getStr
      .ok { system_health := system_health, agents := agents,
            active_workflows := active_workflows,
            total_tasks_completed := total_tasks_completed,
            total_tasks_failed := total_tasks_failed, uptime := uptime,
            timestamp := timestamp }
  | _ => .error "invalid type: expected an object"

/-- serde `Deserialize` for `SubmitTaskResponse` (wire name `taskId`). -/
def decodeSubmitTaskResponse (j : Json) : Except String SubmitTaskResponse :=
  match j with
  | .obj fs => do
      let task_id ← reqField fs "taskId" getStr
      let status ← reqField fs "status" getStr
      .ok { task_id := task_id, status := status }
  | _ => .error "invalid type: expected an object"

/-- serde `Deserialize` for `SubmitTaskRequest` (no renames). -/
def decodeSubmitTaskRequest (j : Json) : Except String SubmitTaskRequest :=
  match j with
  | .obj fs => do
      let name ← reqField fs "name" getStr
      let description ← reqField fs "description" getStr
      .ok { name := name, description := description }
  | _ => .error "invalid type: expected an object"

/-- serde `Serialize` for `SubmitTaskRequest`: fields in declaration order. -/
def encodeSubmitTaskRequest (r : SubmitTaskRequest) : Json :=
  .obj [("name", .str r.name), ("description", .str r.description)]

/-- serde `Deserialize` for the inline `AgentsResponse` envelope struct in
`get_agents`: an object with an `agents` field holding the sequence. -/
def decodeAgentsEnvelope (j : Json) : Except String (List AgentSnapshot) :=
  match j with
  | .obj fs => reqField fs "agents" decodeAgentSnapshots
  | _ => .error "invalid type: expected an object"

/-- Lower-case hex digit, as used by serde_json's `\u00XX` escapes. -/
def hexDigit (n : Nat) : Char :=
  if n < 10 then Char.ofNat (48 + n) else Char.ofNat (87 + n)

/-- serde_json's escaping of one character inside a JSON string literal:
quote and backslash are escaped, the five control characters with short
escapes use them, other control characters use `\u00XX`, and everything
else (including non-ASCII) is emitted verbatim. -/
def escapeChar (c : Char) : List Char :=
  if c = '"' then ['\\', '"']
  else if c = '\\' then ['\\', '\\']
  else if c = '\x08' then ['\\', 'b']
  else if c = '\t' then ['\\', 't']
  else if c = '\n' then ['\\', 'n']
  else if c = '\x0c' then ['\\', 'f']
  else if c = '\r' then ['\\', 'r']
  else if c.toNat < 32 then
    ['\\', 'u', '0', '0', hexDigit (c.toNat / 16), hexDigit (c.toNat % 16)]
  else [c]

/-- Escape every character of a string's contents. -/
def escapeList : List Char → List Char
  | [] => []
  | c :: cs => escapeChar c ++ escapeList cs

/-- A JSON string literal: escaped contents between quotes. -/
def renderString (s : String) : String :=
  "\"" ++ String.mk (escapeList s.data) ++ "\""

mutual

/-- Compact rendering of a JSON value, as `serde_json::to_string` produces
for the values this layer sends.  Non-integral number formatting (ryu) is
not modelled exactly; the layer only ever serializes string fields. -/
def renderJson : Json → String
  | .null => "null"
  | .bool true => "true"
  | .bool false => "false"
  | .num q => if q.den = 1 then toString q.num else toString q
  | .str s => renderString s
  | .arr elems => "[" ++ renderJsonList elems ++ "]"
  | .obj fs => "\x7b" ++ renderJsonFields fs ++ "\x7d"

/-- Comma-separated rendering of array elements. -/
def renderJsonList : List Json → String
  | [] => ""
  | [j] => renderJson j
  | j :: rest => renderJson j ++ "," ++ renderJsonList rest

/-- Comma-separated rendering of object fields as `"key":value`. -/
def renderJsonFields : List (String × Json) → String
  | [] => ""
  | [(k, v)] => renderString k ++ ":" ++ renderJson v
  | (k, v) :: rest =>
      renderString k ++ ":" ++ renderJson v ++ "," ++ renderJsonFields rest

end

/-- Value of one hex digit as accepted by a JSON `\uXXXX` escape
(serde_json accepts both cases on input). -/
def hexVal (c : Char) : Option Nat :=
  if 48 ≤ c.toNat ∧ c.toNat ≤ 57 then some (c.toNat - 48)
  else if 97 ≤ c.toNat ∧ c.toNat ≤ 102 then some (c.toNat - 87)
  else if 65 ≤ c.toNat ∧ c.toNat ≤ 70 then some (c.toNat - 55)
  else none

/-- JSON string-literal unescaping, as serde_json's parser applies to the
contents of a string literal: `\"`, `\\`, `\/`, `\b`, `\t`, `\n`, `\f`,
`\r` and `\u00XX` escapes are decoded, an unescaped quote or a malformed
escape is rejected, everything else passes through.  Surrogate-pair
`\uXXXX` escapes (not produced when serializing this layer's data) are not
modelled and rejected. -/
def unescapeList : List Char → Option (List Char)
  | [] => some []
  | '\\' :: rest =>
      match rest with
      | '"' :: t => (unescapeList t).map (fun l => '"' :: l)
      | '\\' :: t => (unescapeList t).map (fun l => '\\' :: l)
      | '/' :: t => (unescapeList t).map (fun l => '/' :: l)
      | 'b' :: t => (unescapeList t).map (fun l => '\x08' :: l)
      | 't' :: t => (unescapeList t).map (fun l => '\t' :: l)
      | 'n' :: t => (unescapeList t).map (fun l => '\n' :: l)
      | 'f' :: t => (unescapeList t).map (fun l => '\x0c' :: l)
      | 'r' :: t => (unescapeList t).map (fun l => '\r' :: l)
      | 'u' :: h1 :: h2 :: h3 :: h4 :: t =>
          match hexVal h1, hexVal h2, hexVal h3, hexVal h4 with
          | some a, some b, some c, some d =>
              let n := 4096 * a + 256 * b + 16 * c + d
              if n < 55296 then (unescapeList t).map (fun l => Char.ofNat n :: l)
              else none
          | _, _, _, _ => none
      | _ => none
  | '"' :: _ => none
  | c :: rest => (unescapeList rest).map (fun l => c :: l)

/-- HTTP method of an outbound request. -/
inductive Method where
  | GET : Method
  | POST : Method
deriving DecidableEq

/-- An outbound HTTP request as built by the command layer: method, full URL,
and optional JSON body (set by `.json(&...)`). -/
structure HttpRequest where
  method : Method
  url : String
  body : Option Json

/-- An HTTP response as seen by the layer: a status code, and the body already
parsed as JSON.  The source never inspects the status; `.json::<T>()` decodes
the body regardless of it. -/
structure HttpResponse where
  status : Nat
  body : Json

/-- The network: maps a request to a transport failure (already rendered to a
string, as `map_err(|e| e.to_string())` does) or a response. -/
abbrev Transport := HttpRequest → Except String HttpResponse

/-- `API_BASE` from commands.rs. -/
def API_BASE : String := "http://localhost:3000/api"

/-- The single GET request that `get_health` issues. -/
def healthRequest : HttpRequest :=
  { method := .GET, url := API_BASE ++ "/health", body := none }

/-- The single GET request that `get_snapshot` issues. -/
def snapshotRequest : HttpRequest :=
  { method := .GET, url := API_BASE ++ "/snapshot", body := none }

/-- The single GET request that `get_agents` issues. -/
def agentsRequest : HttpRequest :=
  { method := .GET, url := API_BASE ++ "/agents", body := none }

/-- The single POST request that `submit_task` issues: body is the serialized
`SubmitTaskRequest { name, description }`. -/
def taskRequest (name description : String) : HttpRequest :=
  { method := .POST, url := API_BASE ++ "/tasks",
    body := some (encodeSubmitTaskRequest
      { name := name, description := description }) }

/-- `get_health`: one GET to `{API_BASE}/health`, decode body as
`HealthResponse`; transport and decode failures become the returned error
string.  The first component is the trace of requests issued. -/
def get_health (t : Transport) :
    List HttpRequest × Except String HealthResponse :=
  ([healthRequest],
    match t healthRequest with
    | .error e => .error e
    | .ok resp => decodeHealthResponse resp.body)

/-- `get_snapshot`: one GET to `{API_BASE}/snapshot`, decode body as
`DashboardSnapshot`. -/
def get_snapshot (t : Transport) :
    List HttpRequest × Except String DashboardSnapshot :=
  ([snapshotRequest],
    match t snapshotRequest with
    | .error e => .error e
    | .ok resp => decodeDashboardSnapshot resp.body)

/-- `get_agents`: one GET to `{API_BASE}/agents`, decode body as the
`AgentsResponse` envelope, return the unwrapped `agents` sequence. -/
def get_agents (t : Transport) :
    List HttpRequest × Except String (List AgentSnapshot) :=
  ([agentsRequest],
    match t agentsRequest with
    | .error e => .error e
    | .ok resp => decodeAgentsEnvelope resp.body)

/-- `submit_task`: one POST to `{API_BASE}/tasks` with the serialized
`SubmitTaskRequest` as body, decode response body as `SubmitTaskResponse`. -/
def submit_task (t : Transport) (name description : String) :
    List HttpRequest × Except String SubmitTaskResponse :=
  ([taskRequest name description],
    match t (taskRequest name description) with
    | .error e => .error e
    | .ok resp => decodeSubmitTaskResponse resp.body)

/-- Wire record of the spec's example agent:
`{"agentId":"a1","teamType":"qa","status":"idle","currentTask":null,
"tasksCompleted":3,"tasksFailed":0,"uptime":120}`. -/
def exAgentRecord : List (String × Json) :=
  [("agentId", .str "a1"), ("teamType", .str "qa"), ("status", .str "idle"),
   ("currentTask", .null), ("tasksCompleted", .num ((3 : Nat) : Rat)),
   ("tasksFailed", .num ((0 : Nat) : Rat)), ("uptime", .num ((120 : Nat) : Rat))]

/-- The decoded form of `exAgentRecord`. -/
def exAgent : AgentSnapshot :=
  { agent_id := "a1", team_type := "qa", status := "idle",
    current_task := none, tasks_completed := 3, tasks_failed := 0,
    uptime := 120 }

/-- Fields of the spec's example `get_agents` envelope body
`{"agents":[...]}`. -/
def exAgentsFields : List (String × Json) :=
  [("agents", .arr [.obj exAgentRecord])]

/-- Fields of an example well-formed health body
`{"status":"ok","health":1}`. -/
def exHealthFields : List (String × Json) :=
  [("status", .str "ok"), ("health", .num ((1 : Nat) : Rat))]

/-- An example snapshot body with every required field except `timestamp`. -/
def exSnapshotNoTimestamp : Json :=
  .obj [("systemHealth", .num ((1 : Nat) : Rat)), ("agents", .arr []),
        ("activeWorkflows", .num ((0 : Nat) : Rat)),
        ("totalTasksCompleted", .num ((0 : Nat) : Rat)),
        ("totalTasksFailed", .num ((0 : Nat) : Rat)),
        ("uptime", .num ((5 : Nat) : Rat))]

theorem exceptBind_ok {α β : Type} {x : Except String α} {f : α → Except String β}
    {b : β} (h : x >>= f = .ok b) : ∃ a, x = .ok a ∧ f a = .ok b := by
  cases x with
  | error e => simp [Bind.bind, Except.bind] at h
  | ok a => exact ⟨a, rfl, by simpa [Bind.bind, Except.bind] using h⟩

theorem reqField_ok {α : Type} {fs : List (String × Json)} {name : String}
    {dec : Json → Except String α} {a : α}
    (h : reqField fs name dec = .ok a) : (findField fs name).isSome := by
  unfold reqField at h
  cases hf : findField fs name <;> simp [hf] at h ⊢

theorem getU32_natCast (n : Nat) (h : n < 4294967296) :
    getU32 (.num (n : Rat)) = .ok n := by
  simp only [getU32]
  rw [if_pos]
  · rw [Rat.num_natCast]
    simp
  · refine ⟨Rat.den_natCast n, ?_, ?_⟩
    · rw [Rat.num_natCast]
      exact Int.natCast_nonneg n
    · rw [Rat.num_natCast]
      exact_mod_cast h

theorem getU64_natCast (n : Nat) (h : n < 18446744073709551616) :
    getU64 (.num (n : Rat)) = .ok n := by
  simp only [getU64]
  rw [if_pos]
  · rw [Rat.num_natCast]
    simp
  · refine ⟨Rat.den_natCast n, ?_, ?_⟩
    · rw [Rat.num_natCast]
      exact Int.natCast_nonneg n
    · rw [Rat.num_natCast]
      exact_mod_cast h

theorem findField_cons_ne {k name : String} (v : Json)
    (fs : List (String × Json)) (h : k ≠ name) :
    findField ((k, v) :: fs) name = findField fs name := by
  simp [findField, h]

theorem reqField_cons_ne {α : Type} {k name : String} (v : Json)
    (fs : List (String × Json)) (dec : Json → Except String α) (h : k ≠ name) :
    reqField ((k, v) :: fs) name dec = reqField fs name dec := by
  unfold reqField
  rw [findField_cons_ne v fs h]

theorem optStrField_cons_ne {k name : String} (v : Json)
    (fs : List (String × Json)) (h : k ≠ name) :
    optStrField ((k, v) :: fs) name = optStrField fs name := by
  unfold optStrField
  rw [findField_cons_ne v fs h]

/-- C7: every operation targets the fixed base URL
`http://localhost:3000/api` (a compile-time constant, not configurable at
runtime), and issues exactly the stated method and path: GET `/health`,
GET `/snapshot`, GET `/agents`, POST `/tasks`. -/
theorem fixed_base_url_and_routes :
    API_BASE = "http://localhost:3000/api" ∧
    (∀ t : Transport, (get_health t).1 =
      [{ method := .GET, url := "http://localhost:3000/api/health",
         body := none }]) ∧
    (∀ t : Transport, (get_snapshot t).1 =
      [{ method := .GET, url := "http://localhost:3000/api/snapshot",
         body := none }]) ∧
    (∀ t : Transport, (get_agents t).1 =
      [{ method := .GET, url := "http://localhost:3000/api/agents",
         body := none }]) ∧
    (∀ (t : Transport) (n d : String), (submit_task t n d).1 =
      [{ method := .POST, url := "http://localhost:3000/api/tasks",
         body := some (encodeSubmitTaskRequest
           { name := n, description := d }) }]) :=
  ⟨rfl, fun _ => rfl, fun _ => rfl, fun _ => rfl, fun _ _ _ => rfl⟩

/-- C8: each invocation of any of the four operations issues exactly one
outbound HTTP request — its trace has length one, for every transport
behaviour (so no retry on failure, no cached skip of the request). -/
theorem single_request_per_operation :
    ∀ (t : Transport) (n d : String),
      (get_health t).1.length = 1 ∧ (get_snapshot t).1.length = 1 ∧
      (get_agents t).1.length = 1 ∧ (submit_task t n d).1.length = 1 :=
  fun _ _ _ => ⟨rfl, rfl, rfl, rfl⟩

/-- C3: for every pair of argument strings, submit_task builds the
`SubmitTaskRequest` with no validation and the outbound POST body is
exactly the object with fields `name` and `description`; the concrete
pair ("build-x", "desc") serializes to the exact byte string. -/
theorem submit_task_request_body :
    (∀ (t : Transport) (n d : String),
      (submit_task t n d).1 =
        [{ method := .POST, url := API_BASE ++ "/tasks",
           body := some (.obj [("name", .str n),
                               ("description", .str d)]) }]) ∧
    renderJson (encodeSubmitTaskRequest
        { name := "build-x", description := "desc" }) =
      "\x7b\"name\":\"build-x\",\"description\":\"desc\"\x7d" :=
  ⟨fun _ _ _ => rfl, rfl⟩

/-- C2: get_agents unwraps the `{agents: [...]}` envelope: whenever the
transport answers its GET with an object whose `agents` field is an array
whose elements decode as `AgentSnapshot`s, the operation returns exactly
that inner sequence, in order, and not the envelope. -/
theorem get_agents_unwraps_envelope (t : Transport) (s : Nat)
    (fs : List (String × Json)) (items : List Json)
    (as : List AgentSnapshot)
    (h1 : t agentsRequest = .ok ⟨s, .obj fs⟩)
    (h2 : findField fs "agents" = some (.arr items))
    (h3 : items.mapM decodeAgentSnapshot = .ok as) :
    (get_agents t).2 = .ok as := by
  have h3l : List.mapM.loop decodeAgentSnapshot items [] = Except.ok as := by
    simpa [List.mapM] using h3
  simp [get_agents, h1, decodeAgentsEnvelope, reqField, h2,
    decodeAgentSnapshots, List.mapM, h3l]

/-- Witness for C2 at the spec's concrete example body. -/
theorem get_agents_unwraps_envelope_witness :
    (get_agents (fun _ => .ok ⟨200, .obj exAgentsFields⟩)).2 =
      .ok [exAgent] :=
  get_agents_unwraps_envelope (fun _ => .ok ⟨200, .obj exAgentsFields⟩) 200
    exAgentsFields [.obj exAgentRecord] [exAgent] rfl rfl rfl

/-- C1: decoding is a pure renaming of wire fields — for every well-formed
success body, each decoder returns the record whose components equal the
JSON field values looked up under their camelCase wire names (`agentId`,
`teamType`, `currentTask`, `tasksCompleted`, `tasksFailed`,
`systemHealth`, `activeWorkflows`, `totalTasksCompleted`,
`totalTasksFailed`, `taskId`) with no transformation; and each operation
returns exactly the decode of the response body it received. -/
theorem decode_is_field_renaming :
    (∀ (fs : List (String × Json)) (st : String) (he : Rat),
      findField fs "status" = some (.str st) →
      findField fs "health" = some (.num he) →
      decodeHealthResponse (.obj fs) = .ok { status := st, health := he }) ∧
    (∀ (fs : List (String × Json)) (a tt st : String) (ct : Option String)
        (tc tf up : Nat),
      findField fs "agentId" = some (.str a) →
      findField fs "teamType" = some (.str tt) →
      findField fs "status" = some (.str st) →
      optStrField fs "currentTask" = .ok ct →
      findField fs "tasksCompleted" = some (.num (tc : Rat)) →
      tc < 4294967296 →
      findField fs "tasksFailed" = some (.num (tf : Rat)) →
      tf < 4294967296 →
      findField fs "uptime" = some (.num (up : Rat)) →
      up < 18446744073709551616 →
      decodeAgentSnapshot (.obj fs) =
        .ok { agent_id := a, team_type := tt, status := st,
              current_task := ct, tasks_completed := tc, tasks_failed := tf,
              uptime := up }) ∧
    (∀ (fs : List (String × Json)) (sh : Rat) (items : List Json)
        (as : List AgentSnapshot) (aw tcd tfd up : Nat) (ts : String),
      findField fs "systemHealth" = some (.num sh) →
      findField fs "agents" = some (.arr items) →
      items.mapM decodeAgentSnapshot = .ok as →
      findField fs "activeWorkflows" = some (.num (aw : Rat)) →
      aw < 4294967296 →
      findField fs "totalTasksCompleted" = some (.num (tcd : Rat)) →
      tcd < 4294967296 →
      findField fs "totalTasksFailed" = some (.num (tfd : Rat)) →
      tfd < 4294967296 →
      findField fs "uptime" = some (.num (up : Rat)) →
      up < 18446744073709551616 →
      findField fs "timestamp" = some (.str ts) →
      decodeDashboardSnapshot (.obj fs) =
        .ok { system_health := sh, agents := as, active_workflows := aw,
              total_tasks_completed := tcd, total_tasks_failed := tfd,
              uptime := up, timestamp := ts }) ∧
    (∀ (fs : List (String × Json)) (tid st : String),
      findField fs "taskId" = some (.str tid) →
      findField fs "status" = some (.str st) →
      decodeSubmitTaskResponse (.obj fs) =
        .ok { task_id := tid, status := st }) ∧
    (∀ (t : Transport) (s : Nat) (body : Json),
      t healthRequest = .ok ⟨s, body⟩ →
      (get_health t).2 = decodeHealthResponse body) ∧
    (∀ (t : Transport) (s : Nat) (body : Json),
      t snapshotRequest = .ok ⟨s, body⟩ →
      (get_snapshot t).2 = decodeDashboardSnapshot body) ∧
    (∀ (t : Transport) (s : Nat) (body : Json),
      t agentsRequest = .ok ⟨s, body⟩ →
      (get_agents t).2 = decodeAgentsEnvelope body) ∧
    (∀ (t : Transport) (n d : String) (s : Nat) (body : Json),
      t (taskRequest n d) = .ok ⟨s, body⟩ →
      (submit_task t n d).2 = decodeSubmitTaskResponse body) := by
  refine ⟨?_, ?_, ?_, ?_, ?_, ?_, ?_, ?_⟩
  · intro fs st he h1 h2
    simp [decodeHealthResponse, reqField, h1, h2, getStr, getF64,
      Bind.bind, Except.bind]
  · intro fs a tt st ct tc tf up h1 h2 h3 h4 h5 h5b h6 h6b h7 h7b
    simp [decodeAgentSnapshot, reqField, h1, h2, h3, h4, h5, h6, h7, getStr,
      getU32_natCast _ h5b, getU32_natCast _ h6b, getU64_natCast _ h7b,
      Bind.bind, Except.bind]
  · intro fs sh items as aw tcd tfd up ts h1 h2 hm h3 h3b h4 h4b h5 h5b h6
      h6b h7
    have hml : List.mapM.loop decodeAgentSnapshot items [] = Except.ok as := by
      simpa [List.mapM] using hm
    simp [decodeDashboardSnapshot, reqField, h1, h2, h3, h4, h5, h6, h7,
      getStr, getF64, decodeAgentSnapshots, List.mapM, hml,
      getU32_natCast _ h3b, getU32_natCast _ h4b, getU32_natCast _ h5b,
      getU64_natCast _ h6b, Bind.bind, Except.bind]
  · intro fs tid st h1 h2
    simp [decodeSubmitTaskResponse, reqField, h1, h2, getStr,
      Bind.bind, Except.bind]
  · intro t s body h
    simp [get_health, h]
  · intro t s body h
    simp [get_snapshot, h]
  · intro t s body h
    simp [get_agents, h]
  · intro t n d s body h
    simp [submit_task, h]

/-- Witness for C1: the decoders applied at concrete bodies, and get_health
returning the decode of the body served by a concrete transport. -/
theorem decode_is_field_renaming_witness :
    decodeHealthResponse (.obj exHealthFields) =
      .ok { status := "ok", health := ((1 : Nat) : Rat) } ∧
    decodeAgentSnapshot (.obj exAgentRecord) = .ok exAgent ∧
    decodeSubmitTaskResponse
        (.obj [("taskId", .str "t1"), ("status", .str "queued")]) =
      .ok { task_id := "t1", status := "queued" } ∧
    (get_health (fun _ => .ok ⟨200, .obj exHealthFields⟩)).2 =
      decodeHealthResponse (.obj exHealthFields) :=
  ⟨decode_is_field_renaming.1 exHealthFields "ok" ((1 : Nat) : Rat) rfl rfl,
   decode_is_field_renaming.2.1 exAgentRecord "a1" "qa" "idle" none 3 0 120
     rfl rfl rfl rfl rfl (by decide) rfl (by decide) rfl (by decide),
   decode_is_field_renaming.2.2.2.1
     [("taskId", .str "t1"), ("status", .str "queued")] "t1" "queued" rfl rfl,
   decode_is_field_renaming.2.2.2.2.1
     (fun _ => .ok ⟨200, .obj exHealthFields⟩) 200 (.obj exHealthFields) rfl⟩

/-- C4: decoding succeeds only when every non-optional field is present:
whenever a decoder returns a value, each required wire field was present
in the object; and the concrete snapshot body missing `timestamp` makes
get_snapshot return a decode error, not a default-filled value. -/
theorem required_fields_enforced :
    (∀ (fs : List (String × Json)) (v : HealthResponse),
      decodeHealthResponse (.obj fs) = .ok v →
      (findField fs "status").isSome ∧ (findField fs "health").isSome) ∧
    (∀ (fs : List (String × Json)) (v : AgentSnapshot),
      decodeAgentSnapshot (.obj fs) = .ok v →
      (findField fs "agentId").isSome ∧ (findField fs "teamType").isSome ∧
      (findField fs "status").isSome ∧
      (findField fs "tasksCompleted").isSome ∧
      (findField fs "tasksFailed").isSome ∧ (findField fs "uptime").isSome) ∧
    (∀ (fs : List (String × Json)) (v : DashboardSnapshot),
      decodeDashboardSnapshot (.obj fs) = .ok v →
      (findField fs "systemHealth").isSome ∧
      (findField fs "agents").isSome ∧
      (findField fs "activeWorkflows").isSome ∧
      (findField fs "totalTasksCompleted").isSome ∧
      (findField fs "totalTasksFailed").isSome ∧
      (findField fs "uptime").isSome ∧ (findField fs "timestamp").isSome) ∧
    (∀ (fs : List (String × Json)) (v : SubmitTaskResponse),
      decodeSubmitTaskResponse (.obj fs) = .ok v →
      (findField fs "taskId").isSome ∧ (findField fs "status").isSome) ∧
    (get_snapshot (fun _ => .ok ⟨200, exSnapshotNoTimestamp⟩)).2 =
      .error "missing field timestamp" := by
  refine ⟨?_, ?_, ?_, ?_, rfl⟩
  · intro fs v h
    simp only [decodeHealthResponse] at h
    obtain ⟨st, hst, h⟩ := exceptBind_ok h
    obtain ⟨he, hhe, h⟩ := exceptBind_ok h
    exact ⟨reqField_ok hst, reqField_ok hhe⟩
  · intro fs v h
    simp only [decodeAgentSnapshot] at h
    obtain ⟨a, ha, h⟩ := exceptBind_ok h
    obtain ⟨tt, htt, h⟩ := exceptBind_ok h
    obtain ⟨st, hst, h⟩ := exceptBind_ok h
    obtain ⟨ct, hct, h⟩ := exceptBind_ok h
    obtain ⟨tc, htc, h⟩ := exceptBind_ok h
    obtain ⟨tf, htf, h⟩ := exceptBind_ok h
    obtain ⟨up, hup, h⟩ := exceptBind_ok h
    exact ⟨reqField_ok ha, reqField_ok htt, reqField_ok hst,
      reqField_ok htc, reqField_ok htf, reqField_ok hup⟩
  · intro fs v h
    simp only [decodeDashboardSnapshot] at h
    obtain ⟨sh, hsh, h⟩ := exceptBind_ok h
    obtain ⟨ags, hags, h⟩ := exceptBind_ok h
    obtain ⟨aw, haw, h⟩ := exceptBind_ok h
    obtain ⟨tcd, htcd, h⟩ := exceptBind_ok h
    obtain ⟨tfd, htfd, h⟩ := exceptBind_ok h
    obtain ⟨up, hup, h⟩ := exceptBind_ok h
    obtain ⟨ts, hts, h⟩ := exceptBind_ok h
    exact ⟨reqField_ok hsh, reqField_ok hags, reqField_ok haw,
      reqField_ok htcd, reqField_ok htfd, reqField_ok hup, reqField_ok hts⟩
  · intro fs v h
    simp only [decodeSubmitTaskResponse] at h
    obtain ⟨tid, htid, h⟩ := exceptBind_ok h
    obtain ⟨st, hst, h⟩ := exceptBind_ok h
    exact ⟨reqField_ok htid, reqField_ok hst⟩

/-- Witness for C4 at a concrete well-formed health body. -/
theorem required_fields_enforced_witness :
    (findField exHealthFields "status").isSome ∧
    (findField exHealthFields "health").isSome :=
  required_fields_enforced.1 exHealthFields
    { status := "ok", health := ((1 : Nat) : Rat) } rfl

theorem hexVal_hexDigit : ∀ n < 16, hexVal (hexDigit n) = some n := by decide

set_option maxHeartbeats 1000000 in
theorem escape_unescape (l : List Char) :
    unescapeList (escapeList l) = some l := by
  induction l with
  | nil => rfl
  | cons c cs ih =>
    show unescapeList (escapeChar c ++ escapeList cs) = some (c :: cs)
    by_cases h1 : c = '"'
    · subst h1
      simp [escapeChar, unescapeList, ih]
    by_cases h2 : c = '\\'
    · subst h2
      simp [escapeChar, unescapeList, ih]
    by_cases h3 : c = '\x08'
    · subst h3
      simp [escapeChar, unescapeList, ih]
    by_cases h4 : c = '\t'
    · subst h4
      simp [escapeChar, unescapeList, ih]
    by_cases h5 : c = '\n'
    · subst h5
      simp [escapeChar, unescapeList, ih]
    by_cases h6 : c = '\x0c'
    · subst h6
      simp [escapeChar, unescapeList, ih]
    by_cases h7 : c = '\r'
    · subst h7
      simp [escapeChar, unescapeList, ih]
    by_cases h8 : c.toNat < 32
    · have e : escapeChar c =
          ['\\', 'u', '0', '0', hexDigit (c.toNat / 16),
           hexDigit (c.toNat % 16)] := by
        simp [escapeChar, h1, h2, h3, h4, h5, h6, h7, h8]
      rw [e]
      have h0 : hexVal '0' = some 0 := rfl
      simp only [List.cons_append, List.nil_append, unescapeList, h0,
        hexVal_hexDigit (c.toNat / 16) (by omega),
        hexVal_hexDigit (c.toNat % 16) (by omega)]
      have hn : 4096 * 0 + 256 * 0 + 16 * (c.toNat / 16) + c.toNat % 16 =
          c.toNat := by omega
      rw [hn]
      rw [if_pos (by omega)]
      simp [Char.ofNat_toNat, ih]
    · have e : escapeChar c = [c] := by
        simp [escapeChar, h1, h2, h3, h4, h5, h6, h7, h8]
      rw [e]
      simp [unescapeList, h1, h2, ih]

/-- C6: for every TaskSubmission (any name and description strings,
including embedded quotes and newlines), serializing and deserializing
through the JSON layer is the identity: the encoded object decodes back to
a field-identical record, and the string escaping applied when rendering
is inverted exactly by unescaping, character-for-character. -/
theorem submitTaskRequest_roundtrip :
    ∀ r : SubmitTaskRequest,
      decodeSubmitTaskRequest (encodeSubmitTaskRequest r) = .ok r ∧
      unescapeList (escapeList r.name.data) = some r.name.data ∧
      unescapeList (escapeList r.description.data) =
        some r.description.data :=
  fun r => ⟨rfl, escape_unescape r.name.data, escape_unescape r.description.data⟩

/-- C5: every failure is returned to the caller as a textual error value:
if the transport fails with message m the operation returns exactly
`.error m`, and if the transport succeeds but decoding the body fails with
message m the operation returns exactly `.error m` — for all four
operations, with no retry (see the single-request trace) and no other
outcome. -/
theorem failures_returned_as_errors :
    ∀ (t : Transport) (m n d : String),
      (t healthRequest = .error m → (get_health t).2 = .error m) ∧
      (t snapshotRequest = .error m → (get_snapshot t).2 = .error m) ∧
      (t agentsRequest = .error m → (get_agents t).2 = .error m) ∧
      (t (taskRequest n d) = .error m → (submit_task t n d).2 = .error m) ∧
      (∀ resp, t healthRequest = .ok resp →
        decodeHealthResponse resp.body = .error m →
        (get_health t).2 = .error m) ∧
      (∀ resp, t snapshotRequest = .ok resp →
        decodeDashboardSnapshot resp.body = .error m →
        (get_snapshot t).2 = .error m) ∧
      (∀ resp, t agentsRequest = .ok resp →
        decodeAgentsEnvelope resp.body = .error m →
        (get_agents t).2 = .error m) ∧
      (∀ resp, t (taskRequest n d) = .ok resp →
        decodeSubmitTaskResponse resp.body = .error m →
        (submit_task t n d).2 = .error m) := by
  intro t m n d
  refine ⟨?_, ?_, ?_, ?_, ?_, ?_, ?_, ?_⟩
  · intro h
    simp [get_health, h]
  · intro h
    simp [get_snapshot, h]
  · intro h
    simp [get_agents, h]
  · intro h
    simp [submit_task, h]
  · intro resp h hd
    simp [get_health, h, hd]
  · intro resp h hd
    simp [get_snapshot, h, hd]
  · intro resp h hd
    simp [get_agents, h, hd]
  · intro resp h hd
    simp [submit_task, h, hd]

/-- Witness for C5: an unreachable backend and a non-decodable body each
surface as the returned error string. -/
theorem failures_returned_as_errors_witness :
    (get_health (fun _ => .error "connection refused")).2 =
      .error "connection refused" ∧
    (get_health (fun _ => .ok ⟨200, .null⟩)).2 =
      .error "invalid type: expected an object" :=
  ⟨(failures_returned_as_errors (fun _ => .error "connection refused")
      "connection refused" "" "").1 rfl,
   (failures_returned_as_errors (fun _ => .ok ⟨200, .null⟩)
      "invalid type: expected an object" "" "").2.2.2.2.1 ⟨200, .null⟩
      rfl rfl⟩

/-- C9: the response status code is never inspected: each operation's
result is unchanged under any change of status code with the same body,
and a response whose body decodes (whatever its status, e.g. 404 or 500)
is returned as the successful typed value, while a non-matching body
surfaces as a decode error, not a transport failure. -/
theorem status_code_not_inspected :
    ∀ (s1 s2 : Nat) (body : Json) (n d : String),
      ((get_health (fun _ => .ok ⟨s1, body⟩)).2 =
        (get_health (fun _ => .ok ⟨s2, body⟩)).2) ∧
      ((get_snapshot (fun _ => .ok ⟨s1, body⟩)).2 =
        (get_snapshot (fun _ => .ok ⟨s2, body⟩)).2) ∧
      ((get_agents (fun _ => .ok ⟨s1, body⟩)).2 =
        (get_agents (fun _ => .ok ⟨s2, body⟩)).2) ∧
      ((submit_task (fun _ => .ok ⟨s1, body⟩) n d).2 =
        (submit_task (fun _ => .ok ⟨s2, body⟩) n d).2) ∧
      (∀ v, decodeHealthResponse body = .ok v →
        (get_health (fun _ => .ok ⟨s1, body⟩)).2 = .ok v) ∧
      (∀ m, decodeHealthResponse body = .error m →
        (get_health (fun _ => .ok ⟨s1, body⟩)).2 = .error m) :=
  fun s1 s2 body n d =>
    ⟨rfl, rfl, rfl, rfl,
     fun v h => by simp [get_health, h],
     fun m h => by simp [get_health, h]⟩

/-- Witness for C9: a 500 response whose body matches the health shape is
returned as a successful typed value. -/
theorem status_code_not_inspected_witness :
    (get_health (fun _ => .ok ⟨500, .obj exHealthFields⟩)).2 =
      .ok { status := "ok", health := ((1 : Nat) : Rat) } :=
  (status_code_not_inspected 500 200 (.obj exHealthFields) "" "").2.2.2.2.1
    { status := "ok", health := ((1 : Nat) : Rat) } rfl

/-- C10: unknown extra JSON fields are ignored by every decoder: adding a
field whose name is not among the declared wire names leaves the decode
result unchanged, so any superset of the declared shape decodes exactly as
the declared shape does. -/
theorem unknown_fields_ignored :
    ∀ (k : String) (v : Json) (fs : List (String × Json)),
      (k ≠ "status" → k ≠ "health" →
        decodeHealthResponse (.obj ((k, v) :: fs)) =
          decodeHealthResponse (.obj fs)) ∧
      (k ≠ "agentId" → k ≠ "teamType" → k ≠ "status" → k ≠ "currentTask" →
       k ≠ "tasksCompleted" → k ≠ "tasksFailed" → k ≠ "uptime" →
        decodeAgentSnapshot (.obj ((k, v) :: fs)) =
          decodeAgentSnapshot (.obj fs)) ∧
      (k ≠ "systemHealth" → k ≠ "agents" → k ≠ "activeWorkflows" →
       k ≠ "totalTasksCompleted" → k ≠ "totalTasksFailed" → k ≠ "uptime" →
       k ≠ "timestamp" →
        decodeDashboardSnapshot (.obj ((k, v) :: fs)) =
          decodeDashboardSnapshot (.obj fs)) ∧
      (k ≠ "taskId" → k ≠ "status" →
        decodeSubmitTaskResponse (.obj ((k, v) :: fs)) =
          decodeSubmitTaskResponse (.obj fs)) ∧
      (k ≠ "agents" →
        decodeAgentsEnvelope (.obj ((k, v) :: fs)) =
          decodeAgentsEnvelope (.obj fs)) := by
  intro k v fs
  refine ⟨?_, ?_, ?_, ?_, ?_⟩
  · intro h1 h2
    simp only [decodeHealthResponse, reqField_cons_ne v fs _ h1,
      reqField_cons_ne v fs _ h2]
  · intro h1 h2 h3 h4 h5 h6 h7
    simp only [decodeAgentSnapshot, reqField_cons_ne v fs _ h1,
      reqField_cons_ne v fs _ h2, reqField_cons_ne v fs _ h3,
      optStrField_cons_ne v fs h4, reqField_cons_ne v fs _ h5,
      reqField_cons_ne v fs _ h6, reqField_cons_ne v fs _ h7]
  · intro h1 h2 h3 h4 h5 h6 h7
    simp only [decodeDashboardSnapshot, reqField_cons_ne v fs _ h1,
      reqField_cons_ne v fs _ h2, reqField_cons_ne v fs _ h3,
      reqField_cons_ne v fs _ h4, reqField_cons_ne v fs _ h5,
      reqField_cons_ne v fs _ h6, reqField_cons_ne v fs _ h7]
  · intro h1 h2
    simp only [decodeSubmitTaskResponse, reqField_cons_ne v fs _ h1,
      reqField_cons_ne v fs _ h2]
  · intro h1
    simp only [decodeAgentsEnvelope, reqField_cons_ne v fs _ h1]

/-- Witness for C10: an extra `"extra": true` field leaves the health
decode unchanged. -/
theorem unknown_fields_ignored_witness :
    decodeHealthResponse (.obj (("extra", .bool true) :: exHealthFields)) =
      decodeHealthResponse (.obj exHealthFields) :=
  (unknown_fields_ignored "extra" (.bool true) exHealthFields).1
    (by decide) (by decide)
